import Mathlib

/-!
Verification of the ATSResumeChecker repository against its specification.

The Python sources are shallowly embedded: strings are Lean `String`s,
Python floats are modelled as exact rationals (`ℚ`), `round(x, 1)` is
modelled by round-half-to-even on tenths, dictionaries with a fixed key
set become structures, and dictionary lookups with defaults become total
functions.  Decorative feedback strings that no claim mentions are
omitted from the embedded result records.
-/

/-- Left-to-right non-overlapping occurrence counting, with a fuel
argument for structural recursion; every step consumes at least one
character of the haystack, so fuel equal to the haystack length is
always sufficient. -/
def pyCountAux (needle : List Char) : List Char → Nat → Nat
  | _, 0 => 0
  | [], _ + 1 => 0
  | c :: rest, fuel + 1 =>
    if needle.isPrefixOf (c :: rest) then
      1 + pyCountAux needle (rest.drop (needle.length - 1)) fuel
    else
      pyCountAux needle rest fuel

/-- Python `str.count(sub)`: number of non-overlapping occurrences of
`needle` in `hay`, scanning left to right; an empty needle yields
`hay.length + 1`, as in Python. -/
def pyCountChars (needle : List Char) (hay : List Char) : Nat :=
  if needle = [] then hay.length + 1
  else pyCountAux needle hay hay.length

/-- Python `str.count` on strings. -/
def pyCount (needle hay : String) : Nat :=
  pyCountChars needle.data hay.data

/-- Python `needle in hay` substring test. -/
def pyInStr (needle hay : String) : Bool :=
  decide (0 < pyCount needle hay)

/-- Python `len(s.split())`: number of maximal whitespace-free runs. -/
def pyWordCount (s : String) : Nat :=
  (s.data.foldl
    (fun (acc : Nat × Bool) c =>
      if c.isWhitespace then (acc.1, false)
      else if acc.2 then acc else (acc.1 + 1, true))
    (0, false)).1

/-- Python `str.lower()`, modelled character-wise on the string's data
(our inputs are ASCII). -/
def pyLower (s : String) : String :=
  ⟨s.data.map Char.toLower⟩

/-- Python `str.strip()`: drop whitespace from both ends. -/
def pyStrip (s : String) : String :=
  ⟨((s.data.dropWhile Char.isWhitespace).reverse.dropWhile Char.isWhitespace).reverse⟩

/-- Python `round` to an integer: round half to even (banker's rounding),
on exact rationals. -/
def pyRoundInt (q : ℚ) : ℤ :=
  let f := ⌊q⌋
  let r := q - (f : ℚ)
  if r < 1/2 then f
  else if 1/2 < r then f + 1
  else if Even f then f else f + 1

/-- Python `round(x, 1)`: round to one decimal place, half to even. -/
def pyRound1 (q : ℚ) : ℚ :=
  (pyRoundInt (q * 10) : ℚ) / 10

/-! Embedding of `src/config.py`. -/

/-- ATS criteria weights from `config.py` (`ATS_CRITERIA_WEIGHTS`); the
source carries only the comment "should sum to 100", no check. -/
def ATS_CRITERIA_WEIGHTS : List (String × ℚ) :=
  [("format_compatibility", 25),
   ("keyword_matching", 30),
   ("readability", 20),
   ("structure_organization", 15),
   ("contact_information", 10)]

/-- ATS rating thresholds from `config.py` (`ATS_THRESHOLDS`). -/
def ATS_THRESHOLDS_excellent : ℚ := 85
def ATS_THRESHOLDS_good : ℚ := 70
def ATS_THRESHOLDS_average : ℚ := 55
def ATS_THRESHOLDS_poor : ℚ := 40

/-- Company hiring criteria weights from `config.py`. -/
def COMPANY_HIRING_CRITERIA_ats_compatibility : ℚ := 30
def COMPANY_HIRING_CRITERIA_keyword_relevance : ℚ := 25
def COMPANY_HIRING_CRITERIA_experience_level : ℚ := 20
def COMPANY_HIRING_CRITERIA_education_background : ℚ := 15
def COMPANY_HIRING_CRITERIA_skills_match : ℚ := 10

/-- One entry of `COMPANY_JOB_REQUIREMENTS` in `config.py`. -/
structure Requirements where
  required_keywords : List String
  preferred_keywords : List String
  minimum_experience : ℕ
  required_education : List String
  minimum_ats_score : ℚ

/-- Keyword lists from `config.py` (`JOB_KEYWORDS`), looked up by
`get_job_keywords`. -/
def JOB_KEYWORDS_software_engineer : List String :=
  ["python", "java", "javascript", "react", "node.js", "sql", "git",
   "api", "database", "agile", "scrum", "docker", "aws", "cloud",
   "machine learning", "data structures", "algorithms", "testing"]

def JOB_KEYWORDS_data_scientist : List String :=
  ["python", "r", "sql", "machine learning", "deep learning", "tensorflow",
   "pytorch", "pandas", "numpy", "matplotlib", "scikit-learn", "statistics",
   "data analysis", "data visualization", "big data", "hadoop", "spark"]

def JOB_KEYWORDS_marketing : List String :=
  ["digital marketing", "seo", "sem", "social media", "content marketing",
   "google analytics", "facebook ads", "email marketing", "campaign management",
   "brand management", "market research", "roi", "conversion optimization"]

def JOB_KEYWORDS_project_manager : List String :=
  ["project management", "agile", "scrum", "kanban", "pmp", "risk management",
   "stakeholder management", "budget management", "timeline", "deliverables",
   "team leadership", "communication", "planning", "execution"]

/-- The fallback keyword list inside `get_job_keywords` in `config.py`. -/
def general_keywords : List String :=
  ["experience", "skills", "education", "leadership", "team", "project",
   "management", "communication", "problem solving", "analytical",
   "creative", "innovative", "results", "achievements", "professional"]

/-- `get_job_keywords` from `config.py`: category lookup after lowering,
with a general fallback. -/
def get_job_keywords (job_category : String) : List String :=
  if pyLower job_category = "software_engineer" then JOB_KEYWORDS_software_engineer
  else if pyLower job_category = "data_scientist" then JOB_KEYWORDS_data_scientist
  else if pyLower job_category = "marketing" then JOB_KEYWORDS_marketing
  else if pyLower job_category = "project_manager" then JOB_KEYWORDS_project_manager
  else general_keywords

/-- `COMPANY_JOB_REQUIREMENTS['software_engineer']` from `config.py`. -/
def REQ_software_engineer : Requirements :=
  { required_keywords :=
      ["python", "java", "javascript", "react", "node.js", "sql", "git",
       "api", "database", "agile", "scrum", "docker", "aws", "cloud"],
    preferred_keywords :=
      ["machine learning", "data structures", "algorithms", "testing",
       "microservices", "kubernetes", "ci/cd", "devops"],
    minimum_experience := 2,
    required_education := ["bachelor", "computer science", "engineering"],
    minimum_ats_score := 75 }

/-- `COMPANY_JOB_REQUIREMENTS['data_scientist']` from `config.py`. -/
def REQ_data_scientist : Requirements :=
  { required_keywords :=
      ["python", "r", "sql", "machine learning", "statistics",
       "data analysis", "pandas", "numpy", "scikit-learn"],
    preferred_keywords :=
      ["deep learning", "tensorflow", "pytorch", "matplotlib",
       "big data", "hadoop", "spark", "tableau", "power bi"],
    minimum_experience := 1,
    required_education := ["bachelor", "master", "statistics", "mathematics", "computer science"],
    minimum_ats_score := 70 }

/-- `COMPANY_JOB_REQUIREMENTS['marketing_specialist']` from `config.py`. -/
def REQ_marketing_specialist : Requirements :=
  { required_keywords :=
      ["digital marketing", "seo", "social media", "content marketing",
       "campaign management", "brand management", "market research"],
    preferred_keywords :=
      ["google analytics", "facebook ads", "email marketing",
       "conversion optimization", "a/b testing", "roi analysis"],
    minimum_experience := 1,
    required_education := ["bachelor", "marketing", "communications", "business"],
    minimum_ats_score := 65 }

/-- `COMPANY_JOB_REQUIREMENTS['project_manager']` from `config.py`. -/
def REQ_project_manager : Requirements :=
  { required_keywords :=
      ["project management", "agile", "scrum", "stakeholder management",
       "budget management", "team leadership", "planning", "execution"],
    preferred_keywords :=
      ["pmp", "kanban", "risk management", "deliverables",
       "communication", "timeline management", "prince2"],
    minimum_experience := 3,
    required_education := ["bachelor", "project management", "business", "engineering"],
    minimum_ats_score := 70 }

/-- `get_company_job_requirements` from `config.py`: lowered-key lookup in
`COMPANY_JOB_REQUIREMENTS`, with a default record for unknown categories. -/
def get_company_job_requirements (job_category : String) : Requirements :=
  if pyLower job_category = "software_engineer" then REQ_software_engineer
  else if pyLower job_category = "data_scientist" then REQ_data_scientist
  else if pyLower job_category = "marketing_specialist" then REQ_marketing_specialist
  else if pyLower job_category = "project_manager" then REQ_project_manager
  else
    { required_keywords := get_job_keywords job_category,
      preferred_keywords := [],
      minimum_experience := 0,
      required_education := ["bachelor"],
      minimum_ats_score := 60 }

/-- The slice of the `resume_data` dict that
`evaluate_company_hiring_criteria` reads (`ats_score`, `found_keywords`,
with their Python defaults applied). -/
structure ResumeData where
  ats_score : ℚ
  found_keywords : List String

/-- Count of keywords whose lowering appears (list membership) among the
lowered found keywords: the `required_found` / `preferred_found`
comprehensions in `evaluate_company_hiring_criteria`. -/
def found_count (found : List String) (kws : List String) : Nat :=
  (kws.filter (fun k => (found.map pyLower).contains (pyLower k))).length

/-- The `keyword_score` computation in `evaluate_company_hiring_criteria`:
the preferred-keyword bonus is only added inside the
`if required_keywords:` branch. -/
def company_keyword_score (found : List String) (reqs : Requirements) : ℚ :=
  if reqs.required_keywords = [] then 0
  else
    (found_count found reqs.required_keywords : ℚ) / (reqs.required_keywords.length : ℚ) * 70
    + (if reqs.preferred_keywords = [] then 0
       else (found_count found reqs.preferred_keywords : ℚ) / (reqs.preferred_keywords.length : ℚ) * 30)

/-- The weighted `final_score` computation in
`evaluate_company_hiring_criteria` (experience and education scores are
the hard-coded default 50, skills score is the keyword score). -/
def company_final_score (rd : ResumeData) (reqs : Requirements) : ℚ :=
  rd.ats_score * COMPANY_HIRING_CRITERIA_ats_compatibility / 100
  + company_keyword_score rd.found_keywords reqs * COMPANY_HIRING_CRITERIA_keyword_relevance / 100
  + 50 * COMPANY_HIRING_CRITERIA_experience_level / 100
  + 50 * COMPANY_HIRING_CRITERIA_education_background / 100
  + company_keyword_score rd.found_keywords reqs * COMPANY_HIRING_CRITERIA_skills_match / 100

/-- The dict returned by `evaluate_company_hiring_criteria`. -/
structure HiringEvaluation where
  final_score : ℚ
  ats_compatibility : ℚ
  keyword_relevance : ℚ
  experience_level : ℚ
  education_background : ℚ
  skills_match : ℚ
  passes_criteria : Bool
  required_keywords_found : ℕ
  required_keywords_total : ℕ
  preferred_keywords_found : ℕ
  preferred_keywords_total : ℕ
  minimum_ats_score : ℚ

/-- `evaluate_company_hiring_criteria` from `config.py`. -/
def evaluate_company_hiring_criteria (rd : ResumeData) (job_category : String) :
    HiringEvaluation :=
  let requirements := get_company_job_requirements job_category
  let ats_score := rd.ats_score
  let keyword_score := company_keyword_score rd.found_keywords requirements
  let final_score := company_final_score rd requirements
  { final_score := pyRound1 final_score,
    ats_compatibility := ats_score,
    keyword_relevance := pyRound1 keyword_score,
    experience_level := 50,
    education_background := 50,
    skills_match := pyRound1 keyword_score,
    passes_criteria :=
      decide (ats_score ≥ requirements.minimum_ats_score ∧
              keyword_score ≥ 40 ∧
              final_score ≥ 60),
    required_keywords_found := found_count rd.found_keywords requirements.required_keywords,
    required_keywords_total := requirements.required_keywords.length,
    preferred_keywords_found := found_count rd.found_keywords requirements.preferred_keywords,
    preferred_keywords_total := requirements.preferred_keywords.length,
    minimum_ats_score := requirements.minimum_ats_score }

/-! Embedding of `src/utils/ats_checker.py`, module-level functions. -/

/-- The module-level `KEYWORDS` list in `ats_checker.py`. -/
def KEYWORDS : List String :=
  ["Python", "SQL", "machine learning", "project", "team", "problem-solving",
   "JavaScript", "Java", "React", "Node.js", "API", "database", "Git", "Agile"]

/-- `check_formatting_issues`: accumulated formatting penalties. -/
def check_formatting_issues (text : String) : ℕ :=
  let tl := pyLower text
  (if pyInStr "table" tl then 10 else 0)
  + (if pyInStr "graphic" tl || pyInStr "image" tl then 10 else 0)
  + (if pyInStr "header" tl || pyInStr "footer" tl then 5 else 0)

/-- `keyword_match_score`: `int((count / len(KEYWORDS)) * 100)`; on these
inputs Python's float truncation agrees with natural-number division. -/
def keyword_match_score (text : String) : ℕ :=
  let tl := pyLower text
  ((KEYWORDS.filter (fun kw => pyInStr (pyLower kw) tl)).length * 100) / KEYWORDS.length

/-- `check_ats` from `ats_checker.py`. -/
def check_ats (text : String) : ℤ :=
  if text = "" ∨ (pyStrip text).length < 50 then 0
  else
    let score := keyword_match_score text
    let penalty := check_formatting_issues text
    let word_count := pyWordCount text
    let penalty := penalty + (if word_count < 100 then 20 else if 1000 < word_count then 10 else 0)
    min (max ((score : ℤ) - (penalty : ℤ)) 0) 100

/-- The length score assigned from the word count in
`get_detailed_analysis`. -/
def length_score_calc (word_count : ℕ) : ℕ :=
  if 300 ≤ word_count ∧ word_count ≤ 800 then 100
  else if (200 ≤ word_count ∧ word_count < 300) ∨ (800 < word_count ∧ word_count ≤ 1200) then 80
  else if (100 ≤ word_count ∧ word_count < 200) ∨ (1200 < word_count ∧ word_count ≤ 1500) then 60
  else 40

/-- The formatting score in `get_detailed_analysis`:
`max(100 - formatting_penalty, 0)`, which is truncated subtraction. -/
def formatting_score_calc (text : String) : ℕ :=
  100 - check_formatting_issues text

/-- The contact test in `get_detailed_analysis`:
`any(contact in text_lower for contact in ['@', 'email', 'phone'])`. -/
def has_contact_info (text_lower : String) : Bool :=
  pyInStr "@" text_lower || pyInStr "email" text_lower || pyInStr "phone" text_lower

/-- The dict returned by `get_detailed_analysis`.  The nested
feedback strings are omitted; only the per-criterion scores are kept.
Python's short-text branch omits the `word_count`, `structure` and
`contact` entries entirely; the embedding fills them with 0 there (no
claim reads them on that branch). -/
structure DetailedAnalysis where
  overall_score : ℚ
  word_count : ℕ
  recommendations : List String
  found_keywords : List String
  missing_keywords : List String
  keyword_score : ℕ
  formatting_score : ℕ
  length_score : ℕ
  structure_score : ℕ
  contact_score : ℕ
  job_category : String

/-- `get_detailed_analysis` from `ats_checker.py`. -/
def get_detailed_analysis (text : String) (job_category : String) : DetailedAnalysis :=
  if text = "" ∨ (pyStrip text).length < 50 then
    { overall_score := 0,
      word_count := 0,
      recommendations := ["Resume text is too short or empty"],
      found_keywords := [],
      missing_keywords := KEYWORDS.take 5,
      keyword_score := 0,
      formatting_score := 0,
      length_score := 0,
      structure_score := 0,
      contact_score := 0,
      job_category := job_category }
  else
    let keyword_score := keyword_match_score text
    let formatting_penalty := check_formatting_issues text
    let formatting_score := formatting_score_calc text
    let word_count := pyWordCount text
    let length_score := length_score_calc word_count
    let overall_score : ℚ :=
      (keyword_score : ℚ) * 0.4 + (formatting_score : ℚ) * 0.3 + (length_score : ℚ) * 0.3
    let text_lower := pyLower text
    let found_keywords := KEYWORDS.filter (fun kw => pyInStr (pyLower kw) text_lower)
    let missing_keywords := KEYWORDS.filter (fun kw => !(pyInStr (pyLower kw) text_lower))
    let recommendations : List String := []
    let recommendations :=
      if keyword_score < 50 then
        recommendations ++
          ["Include more relevant keywords. Missing: " ++
            String.intercalate ", " (missing_keywords.take 3)]
      else recommendations
    let recommendations :=
      if 20 < formatting_penalty then
        recommendations ++ ["Simplify formatting - avoid tables, images, and complex layouts"]
      else recommendations
    let recommendations :=
      if word_count < 300 then
        recommendations ++ ["Expand your resume content - add more details about your experience"]
      else if 1000 < word_count then
        recommendations ++ ["Consider condensing your resume - focus on most relevant information"]
      else recommendations
    let recommendations :=
      if !(has_contact_info text_lower) then
        recommendations ++ ["Ensure contact information (email, phone) is clearly visible"]
      else recommendations
    let recommendations :=
      if recommendations = [] then
        ["Great job! Your resume looks well-optimized for ATS systems."]
      else recommendations
    let contact_score := if has_contact_info text_lower then 100 else 50
    let structure_score := max formatting_score length_score
    { overall_score := pyRound1 overall_score,
      word_count := word_count,
      recommendations := recommendations,
      found_keywords := found_keywords,
      missing_keywords := missing_keywords.take 10,
      keyword_score := keyword_score,
      formatting_score := formatting_score,
      length_score := length_score,
      structure_score := structure_score,
      contact_score := contact_score,
      job_category := job_category }

/-! Embedding of the `ATSChecker` class methods the claims reference.
The constructor just copies the config globals into the instance, so the
methods are embedded with the weights as an explicit parameter. -/

/-- The result of `ATSChecker.check_keyword_matching` (feedback strings
omitted). -/
structure KeywordMatching where
  score : ℚ
  found_keywords : List String
  missing_keywords : List String
  match_percentage : ℚ

/-- `ATSChecker.check_keyword_matching`: case-insensitive substring
search of the category keywords over the raw text. -/
def check_keyword_matching (raw_text : String) (job_category : String) : KeywordMatching :=
  let text := (pyLower raw_text)
  let keywords := (get_job_keywords job_category).map pyLower
  let found_keywords := keywords.filter (fun kw => pyInStr kw text)
  let missing_keywords := keywords.filter (fun kw => !(pyInStr kw text))
  let match_percentage : ℚ :=
    if keywords = [] then 0 else (found_keywords.length : ℚ) / (keywords.length : ℚ) * 100
  { score := min 100 (match_percentage * 1.2),
    found_keywords := found_keywords,
    missing_keywords := missing_keywords,
    match_percentage := match_percentage }

/-- The weighted-sum loop in `ATSChecker.calculate_overall_score`. -/
def weighted_score (weights : List (String × ℚ)) (scores : String → ℚ) : ℚ :=
  weights.foldl (fun acc p => acc + scores p.1 * p.2 / 100) 0

/-- The result of `ATSChecker.calculate_overall_score`
(`rating_description` omitted). -/
structure OverallAnalysis where
  overall_score : ℚ
  rating : String
  individual_scores : String → ℚ

/-- `ATSChecker.calculate_overall_score`: individual scores are modelled
as a total lookup function (the Python dict lookup defaults to 0). -/
def calculate_overall_score (weights : List (String × ℚ)) (scores : String → ℚ) :
    OverallAnalysis :=
  let w := weighted_score weights scores
  { overall_score := pyRound1 w,
    rating :=
      if w ≥ ATS_THRESHOLDS_excellent then "Excellent"
      else if w ≥ ATS_THRESHOLDS_good then "Good"
      else if w ≥ ATS_THRESHOLDS_average then "Average"
      else if w ≥ ATS_THRESHOLDS_poor then "Poor"
      else "Very Poor",
    individual_scores := scores }

/-- A weight configuration that does not sum to 100 (sums to 90), for
exercising the absence of weight validation. -/
def BAD_WEIGHTS : List (String × ℚ) :=
  [("format_compatibility", 15),
   ("keyword_matching", 30),
   ("readability", 20),
   ("structure_organization", 15),
   ("contact_information", 10)]

/-! Embedding of `ATSChecker._generate_recommendations`. -/

/-- The slice of `individual_scores` / `overall_analysis` that
`_generate_recommendations` reads (dict lookups with their defaults). -/
structure RecInput where
  format_score : ℚ
  keyword_score : ℚ
  missing_keywords : List String
  readability_score : ℚ
  structure_score : ℚ
  sections_contact : Bool
  sections_experience : Bool
  sections_skills : Bool
  contact_score : ℚ
  overall_score : ℚ

/-- The three fixed format tips. -/
def format_tips : List String :=
  ["Use a simple, clean format without tables, text boxes, or images",
   "Stick to standard fonts like Arial, Calibri, or Times New Roman",
   "Avoid headers and footers that may not be parsed correctly"]

/-- The missing-keywords tip, listing the top 5 missing keywords. -/
def keyword_tip (missing_keywords : List String) : String :=
  "Include relevant keywords: " ++ String.intercalate ", " (missing_keywords.take 5)

/-- The three fixed readability tips. -/
def readability_tips : List String :=
  ["Use bullet points to organize information clearly",
   "Keep sentences concise and easy to read",
   "Aim for 300-800 words total"]

/-- The three fixed contact tips. -/
def contact_tips : List String :=
  ["Include your full name, email, and phone number",
   "Use a professional email address",
   "Ensure contact information is at the top of the resume"]

/-- `ATSChecker._generate_recommendations`: sequential appends per rule,
then the overall-score rule INSERTS its message at index 0, then the
list is truncated to the first 10 entries. -/
def generate_recommendations (i : RecInput) : List String :=
  let recs : List String := []
  let recs := if i.format_score < 70 then recs ++ format_tips else recs
  let recs :=
    if i.keyword_score < 60 then
      (if i.missing_keywords = [] then recs else recs ++ [keyword_tip i.missing_keywords])
        ++ ["Tailor your resume to include industry-specific terminology"]
    else recs
  let recs := if i.readability_score < 70 then recs ++ readability_tips else recs
  let recs :=
    if i.structure_score < 70 then
      ((recs ++ (if i.sections_contact then []
                 else ["Ensure contact information is clearly visible at the top"]))
        ++ (if i.sections_experience then []
            else ["Include a detailed work experience section"]))
        ++ (if i.sections_skills then []
            else ["Add a skills section with relevant technical and soft skills"])
    else recs
  let recs := if i.contact_score < 70 then recs ++ contact_tips else recs
  let recs :=
    if i.overall_score < 60 then
      "Consider a major revision focusing on ATS compatibility" :: recs
    else if i.overall_score < 80 then
      "Your resume is good but could benefit from minor improvements" :: recs
    else recs
  recs.take 10

/-- The five appending rules of `_generate_recommendations`, in
declaration order, as one concatenation. -/
def base_recommendations (i : RecInput) : List String :=
  (if i.format_score < 70 then format_tips else [])
  ++ (if i.keyword_score < 60 then
        (if i.missing_keywords = [] then [] else [keyword_tip i.missing_keywords])
        ++ ["Tailor your resume to include industry-specific terminology"]
      else [])
  ++ (if i.readability_score < 70 then readability_tips else [])
  ++ (if i.structure_score < 70 then
        (if i.sections_contact then []
         else ["Ensure contact information is clearly visible at the top"])
        ++ (if i.sections_experience then []
            else ["Include a detailed work experience section"])
        ++ (if i.sections_skills then []
            else ["Add a skills section with relevant technical and soft skills"])
      else [])
  ++ (if i.contact_score < 70 then contact_tips else [])

/-- The overall-score rule of `_generate_recommendations` (the message
the code inserts at the front). -/
def overall_recommendations (i : RecInput) : List String :=
  if i.overall_score < 60 then
    ["Consider a major revision focusing on ATS compatibility"]
  else if i.overall_score < 80 then
    ["Your resume is good but could benefit from minor improvements"]
  else []

/-- Modelled from the spec claim wording, for comparison with the code:
every rule (the overall-score rule included) appends in declaration
order and the result is the first 10 entries of that list. -/
def generate_recommendations_declared_order (i : RecInput) : List String :=
  (base_recommendations i ++ overall_recommendations i).take 10

/-- A concrete input on which the code's output order differs from
declaration order: only the format rule fires, and the overall score is
65, so the code puts the overall-score message first. -/
def rec_input_ex : RecInput :=
  { format_score := 60,
    keyword_score := 80,
    missing_keywords := [],
    readability_score := 80,
    structure_score := 80,
    sections_contact := true,
    sections_experience := true,
    sections_skills := true,
    contact_score := 80,
    overall_score := 65 }

/-! Embedding of `src/utils/intelligent_agent.py`
(`IntelligentATSAgent`). -/

/-- The `job_categories` taxonomy set up in `IntelligentATSAgent.__init__`,
in declaration order. -/
def JOB_CATEGORIES : List (String × List String) :=
  [("education",
    ["curriculum", "classroom", "student", "teaching", "lesson", "teacher", "school",
     "syllabus", "assessment", "pedagogy", "learning", "education", "instructor",
     "tutoring", "academic", "grade", "course", "training", "workshop"]),
   ("art",
    ["creative", "design", "visual", "portfolio", "exhibition", "art", "gallery",
     "photography", "painting", "graphic", "illustration", "artistic", "aesthetic",
     "drawing", "sculpture", "media", "digital art", "adobe", "photoshop"]),
   ("tech",
    ["python", "sql", "api", "javascript", "programming", "machine learning",
     "java", "react", "node.js", "git", "software", "developer", "coding",
     "database", "algorithm", "framework", "backend", "frontend", "devops"]),
   ("healthcare",
    ["patient", "clinical", "medical", "treatment", "health", "nurse", "doctor",
     "hospital", "therapy", "diagnosis", "care", "pharmaceutical", "surgery",
     "healthcare", "medical records", "patient care"]),
   ("finance",
    ["financial", "accounting", "budget", "analysis", "audit", "investment",
     "tax", "banking", "finance", "economics", "portfolio", "risk", "trading",
     "financial planning", "excel", "financial modeling"]),
   ("marketing",
    ["marketing", "advertising", "branding", "campaign", "social media", "seo",
     "content", "digital marketing", "analytics", "conversion", "lead generation"]),
   ("sales",
    ["sales", "client", "customer", "revenue", "negotiation", "pipeline",
     "crm", "quota", "relationship", "business development"])]

/-- The per-category score loop in `auto_detect_job_category`: sum of
occurrence counts of every keyword in the lowered text. -/
def category_score (text_lower : String) (kws : List String) : ℕ :=
  kws.foldl (fun acc kw => acc + pyCount (pyLower kw) text_lower) 0

/-- The `scores` dict built by `auto_detect_job_category`, in taxonomy
iteration order. -/
def auto_detect_scores (resume_text : String) : List (String × ℕ) :=
  JOB_CATEGORIES.map (fun p => (p.1, category_score (pyLower resume_text) p.2))

/-- One step of Python's `max(scores, key=scores.get)`: the running best
is replaced only on a strictly greater score, so the first maximum in
iteration order wins. -/
def max_step (best q : String × ℕ) : String × ℕ :=
  if best.2 < q.2 then q else best

/-- `IntelligentATSAgent.auto_detect_job_category`: the best category by
`max(scores, key=scores.get)`, replaced by the sentinel "general" when
its score is 0, returned together with the raw scores.  The `[]` arm is
unreachable: `JOB_CATEGORIES` is a non-empty literal. -/
def auto_detect_job_category (resume_text : String) : String × List (String × ℕ) :=
  let scores := auto_detect_scores resume_text
  let best_pair :=
    match scores with
    | [] => ("general", 0)
    | p :: rest => rest.foldl max_step p
  let best_category := if best_pair.2 = 0 then "general" else best_pair.1
  (best_category, scores)

/-! Helper lemmas. -/

/-- Every branch of `get_job_keywords` returns a non-empty list. -/
theorem get_job_keywords_ne_nil (job_category : String) :
    get_job_keywords job_category ≠ [] := by
  unfold get_job_keywords
  split_ifs <;>
    simp [JOB_KEYWORDS_software_engineer, JOB_KEYWORDS_data_scientist,
      JOB_KEYWORDS_marketing, JOB_KEYWORDS_project_manager, general_keywords]

/-- Every category yields a non-empty required-keywords list. -/
theorem required_keywords_ne_nil (job_category : String) :
    (get_company_job_requirements job_category).required_keywords ≠ [] := by
  unfold get_company_job_requirements
  split_ifs <;>
    simp [REQ_software_engineer, REQ_data_scientist, REQ_marketing_specialist,
      REQ_project_manager, get_job_keywords_ne_nil]

/-! Claim theorems. -/

/-- C1: for every resume data and job category,
`evaluate_company_hiring_criteria` returns `passes_criteria = true` iff
the ATS score reaches the looked-up minimum ATS score, the keyword
score is at least 40, and the final score is at least 60; hence
violating any single condition while the other two hold flips the
decision to false. -/
theorem C1_passes_criteria_iff (rd : ResumeData) (job_category : String) :
    (evaluate_company_hiring_criteria rd job_category).passes_criteria = true ↔
      (rd.ats_score ≥ (get_company_job_requirements job_category).minimum_ats_score ∧
       company_keyword_score rd.found_keywords (get_company_job_requirements job_category) ≥ 40 ∧
       company_final_score rd (get_company_job_requirements job_category) ≥ 60) := by
  simp [evaluate_company_hiring_criteria]

/-- C2: for every found-keywords list and job category, the keyword
relevance score equals (required_found/required_total)×70 +
(preferred_found/preferred_total)×30 with each term 0 when its
denominator is 0.  This holds because every reachable requirements
record has a non-empty required-keywords list, so the code's gating of
the preferred term inside the `if required_keywords:` branch never
suppresses a non-zero preferred term. -/
theorem C2_keyword_relevance_formula (found : List String) (job_category : String) :
    company_keyword_score found (get_company_job_requirements job_category) =
      (if (get_company_job_requirements job_category).required_keywords.length = 0 then 0
       else (found_count found (get_company_job_requirements job_category).required_keywords : ℚ) /
          ((get_company_job_requirements job_category).required_keywords.length : ℚ) * 70)
      + (if (get_company_job_requirements job_category).preferred_keywords.length = 0 then 0
         else (found_count found (get_company_job_requirements job_category).preferred_keywords : ℚ) /
            ((get_company_job_requirements job_category).preferred_keywords.length : ℚ) * 30) := by
  have h : (get_company_job_requirements job_category).required_keywords ≠ [] :=
    required_keywords_ne_nil job_category
  unfold company_keyword_score
  simp only [List.length_eq_zero]
  rw [if_neg h, if_neg h]

/-- C3 counterexample: a weight configuration summing to 90 is accepted
by the scorer and silently produces a normal weighted score (72 for
uniform individual scores of 80); no fatal configuration error exists. -/
theorem C3_no_weight_validation_counterexample :
    (BAD_WEIGHTS.map Prod.snd).sum = 90 ∧
    (calculate_overall_score BAD_WEIGHTS (fun _ => 80)).overall_score = 72 := by
  constructor
  · norm_num [BAD_WEIGHTS]
  · norm_num [calculate_overall_score, weighted_score, BAD_WEIGHTS, pyRound1, pyRoundInt]

/-- C3 amended: the five shipped criterion weights do sum to 100, but no
validation is performed anywhere: the scorer computes a weighted overall
score for every weight configuration, including ones not summing
to 100, rather than failing fast. -/
theorem C3_weights_sum_100_but_unvalidated :
    (ATS_CRITERIA_WEIGHTS.map Prod.snd).sum = 100 ∧
    ∀ (weights : List (String × ℚ)) (scores : String → ℚ),
      (calculate_overall_score weights scores).overall_score =
        pyRound1 (weighted_score weights scores) := by
  exact ⟨by norm_num [ATS_CRITERIA_WEIGHTS], fun _ _ => rfl⟩

/-- C5: `calculate_overall_score` with the configured weights returns
the weighted sum of the five criterion scores (weights 25/30/20/15/10)
rounded to one decimal, assigns the rating by the descending thresholds
85/70/55/40, and feeding the returned `individual_scores` back through
the weighted-sum formula reproduces `overall_score` within one-decimal
rounding. -/
theorem C5_calculate_overall_score_spec (scores : String → ℚ) :
    (calculate_overall_score ATS_CRITERIA_WEIGHTS scores).overall_score =
      pyRound1 (scores "format_compatibility" * 25 / 100
        + scores "keyword_matching" * 30 / 100
        + scores "readability" * 20 / 100
        + scores "structure_organization" * 15 / 100
        + scores "contact_information" * 10 / 100)
    ∧ (calculate_overall_score ATS_CRITERIA_WEIGHTS scores).rating =
        (if weighted_score ATS_CRITERIA_WEIGHTS scores ≥ 85 then "Excellent"
         else if weighted_score ATS_CRITERIA_WEIGHTS scores ≥ 70 then "Good"
         else if weighted_score ATS_CRITERIA_WEIGHTS scores ≥ 55 then "Average"
         else if weighted_score ATS_CRITERIA_WEIGHTS scores ≥ 40 then "Poor"
         else "Very Poor")
    ∧ pyRound1 (weighted_score ATS_CRITERIA_WEIGHTS
          ((calculate_overall_score ATS_CRITERIA_WEIGHTS scores).individual_scores)) =
        (calculate_overall_score ATS_CRITERIA_WEIGHTS scores).overall_score := by
  refine ⟨?_, rfl, rfl⟩
  show pyRound1 (weighted_score ATS_CRITERIA_WEIGHTS scores) = _
  congr 1
  simp only [weighted_score, ATS_CRITERIA_WEIGHTS, List.foldl]
  ring

/-- C6: for every text whose trimmed length is below 50 characters,
`check_ats` returns 0 and `get_detailed_analysis` returns overall score
0 with the single too-short recommendation; both are total functions, so
the outcome is non-exceptional. -/
theorem C6_short_text_short_circuits (text job_category : String)
    (h : (pyStrip text).length < 50) :
    check_ats text = 0 ∧
    (get_detailed_analysis text job_category).overall_score = 0 ∧
    (get_detailed_analysis text job_category).recommendations =
      ["Resume text is too short or empty"] := by
  unfold check_ats get_detailed_analysis
  rw [if_pos (Or.inr h), if_pos (Or.inr h)]
  exact ⟨rfl, rfl, rfl⟩

/-- C6 witness: the theorem applied to the 2-character text "hi". -/
theorem C6_witness :
    (pyStrip "hi").length < 50 ∧
      (check_ats "hi" = 0 ∧
       (get_detailed_analysis "hi" "general").overall_score = 0 ∧
       (get_detailed_analysis "hi" "general").recommendations =
         ["Resume text is too short or empty"]) :=
  ⟨by decide, C6_short_text_short_circuits "hi" "general" (by decide)⟩

/-- C7: `check_keyword_matching` finds and misses keywords by
case-insensitive substring search over the category keyword list, and
its score is min(100, matched_fraction × 100 × 1.2); with rational
division-by-zero equal to 0, the same formula also gives score 0 for an
empty keyword list. -/
theorem C7_keyword_matching_score_formula (raw_text job_category : String) :
    (check_keyword_matching raw_text job_category).score =
      min 100
        (((check_keyword_matching raw_text job_category).found_keywords.length : ℚ) /
            (((get_job_keywords job_category).map pyLower).length : ℚ) * 100 * 1.2)
    ∧ (check_keyword_matching raw_text job_category).found_keywords =
        ((get_job_keywords job_category).map pyLower).filter
          (fun kw => pyInStr kw (pyLower raw_text))
    ∧ (check_keyword_matching raw_text job_category).missing_keywords =
        ((get_job_keywords job_category).map pyLower).filter
          (fun kw => !(pyInStr kw (pyLower raw_text))) := by
  have h : (get_job_keywords job_category).map pyLower ≠ [] := by
    simp [get_job_keywords_ne_nil]
  refine ⟨?_, rfl, rfl⟩
  show min 100 ((if (get_job_keywords job_category).map pyLower = [] then (0 : ℚ)
      else (((get_job_keywords job_category).map pyLower).filter
          (fun kw => pyInStr kw (pyLower raw_text))).length /
        (((get_job_keywords job_category).map pyLower).length : ℚ) * 100) * 1.2) = _
  rw [if_neg h]
  rfl

/-- C10: for every text whose trimmed length is at least 50 characters,
`get_detailed_analysis` computes its overall score as
round(keyword×0.4 + formatting×0.3 + length×0.3, 1); the contact and
structure scores it also reports do not appear in the formula. -/
theorem C10_detailed_overall_formula (text job_category : String)
    (h : 50 ≤ (pyStrip text).length) :
    (get_detailed_analysis text job_category).overall_score =
      pyRound1 ((keyword_match_score text : ℚ) * 0.4
        + (formatting_score_calc text : ℚ) * 0.3
        + (length_score_calc (pyWordCount text) : ℚ) * 0.3) := by
  have hg : ¬(text = "" ∨ (pyStrip text).length < 50) := by
    rintro (rfl | hlt)
    · have h0 : (pyStrip "").length = 0 := rfl
      omega
    · omega
  unfold get_detailed_analysis
  rw [if_neg hg]

/-- Unfolding equation for the detected category of
`auto_detect_job_category` when the scores list is a cons cell. -/
theorem auto_detect_fst_of_cons (resume_text : String) (p : String × ℕ)
    (rest : List (String × ℕ)) (hs : auto_detect_scores resume_text = p :: rest) :
    (auto_detect_job_category resume_text).1 =
      if (rest.foldl max_step p).2 = 0 then "general"
      else (rest.foldl max_step p).1 := by
  unfold auto_detect_job_category
  rw [hs]

/-- The fold with `max_step` computes the first maximum: the input list
splits around the result, with strictly smaller scores before it and no
larger score after it. -/
theorem fold_max_first (p : String × ℕ) (rest : List (String × ℕ)) :
    ∃ pre suf, p :: rest = pre ++ rest.foldl max_step p :: suf
      ∧ (∀ q ∈ pre, q.2 < (rest.foldl max_step p).2)
      ∧ (∀ q ∈ suf, q.2 ≤ (rest.foldl max_step p).2) := by
  induction rest generalizing p with
  | nil =>
    exact ⟨[], [], rfl, by simp, by simp⟩
  | cons q rest ih =>
    rw [List.foldl_cons]
    by_cases h : p.2 < q.2
    · rw [show max_step p q = q from if_pos h]
      obtain ⟨pre, suf, heq, hpre, hsuf⟩ := ih q
      have hall : ∀ x ∈ q :: rest, x.2 ≤ (rest.foldl max_step q).2 := by
        intro x hx
        rw [heq] at hx
        rcases List.mem_append.mp hx with hx | hx
        · exact le_of_lt (hpre x hx)
        · rcases List.mem_cons.mp hx with hx | hx
          · exact le_of_eq (congrArg Prod.snd hx)
          · exact hsuf x hx
      refine ⟨p :: pre, suf, ?_, ?_, hsuf⟩
      · rw [List.cons_append, ← heq]
      · intro x hx
        rcases List.mem_cons.mp hx with rfl | hx
        · exact lt_of_lt_of_le h (hall q (List.mem_cons_self q rest))
        · exact hpre x hx
    · rw [show max_step p q = p from if_neg h]
      push_neg at h
      obtain ⟨pre, suf, heq, hpre, hsuf⟩ := ih p
      cases pre with
      | nil =>
        rw [List.nil_append] at heq
        injection heq with h1 h2
        refine ⟨[], q :: suf, ?_, by simp, ?_⟩
        · rw [List.nil_append, ← h1, ← h2]
        · intro x hx
          rcases List.mem_cons.mp hx with rfl | hx
          · rw [← h1]; exact h
          · exact hsuf x hx
      | cons a pre' =>
        rw [List.cons_append] at heq
        injection heq with h1 h2
        have hp : p.2 < (rest.foldl max_step p).2 := by
          have := hpre a (List.mem_cons_self a pre')
          rwa [← h1] at this
        refine ⟨p :: q :: pre', suf, ?_, ?_, hsuf⟩
        · rw [List.cons_append, List.cons_append, ← h2]
        · intro x hx
          rcases List.mem_cons.mp hx with rfl | hx
          · exact hp
          · rcases List.mem_cons.mp hx with rfl | hx
            · exact lt_of_le_of_lt h hp
            · exact hpre x (List.mem_cons_of_mem a hx)

/-- C4: `auto_detect_job_category` returns the raw per-category
occurrence-count scores, the sentinel "general" when every category's
count is 0, and otherwise a category of non-zero maximal count such that
every earlier-declared category scores strictly less (first-declared
wins ties) and no later category scores more. -/
theorem C4_auto_detect_spec (resume_text : String) :
    (auto_detect_job_category resume_text).2 = auto_detect_scores resume_text
    ∧ ((∀ p ∈ auto_detect_scores resume_text, p.2 = 0) →
        (auto_detect_job_category resume_text).1 = "general")
    ∧ (¬(∀ p ∈ auto_detect_scores resume_text, p.2 = 0) →
        ∃ pre suf best,
          auto_detect_scores resume_text = pre ++ best :: suf
          ∧ (auto_detect_job_category resume_text).1 = best.1
          ∧ best.2 ≠ 0
          ∧ (∀ q ∈ pre, q.2 < best.2)
          ∧ (∀ q ∈ suf, q.2 ≤ best.2)) := by
  refine ⟨rfl, ?_, ?_⟩
  · intro hall
    rcases hs : auto_detect_scores resume_text with _ | ⟨p, rest⟩
    · unfold auto_detect_job_category
      rw [hs]
      rfl
    · rw [auto_detect_fst_of_cons resume_text p rest hs]
      rw [hs] at hall
      obtain ⟨pre, suf, heq, -, -⟩ := fold_max_first p rest
      have hmem : rest.foldl max_step p ∈ p :: rest := by
        rw [heq]
        exact List.mem_append_right pre (List.mem_cons_self _ _)
      rw [if_pos (hall _ hmem)]
  · intro hnot
    rcases hs : auto_detect_scores resume_text with _ | ⟨p, rest⟩
    · rw [hs] at hnot
      simp at hnot
    · rw [hs] at hnot
      push_neg at hnot
      obtain ⟨x, hxmem, hx⟩ := hnot
      obtain ⟨pre, suf, heq, hpre, hsuf⟩ := fold_max_first p rest
      have hxle : x.2 ≤ (rest.foldl max_step p).2 := by
        rw [heq] at hxmem
        rcases List.mem_append.mp hxmem with hm | hm
        · exact le_of_lt (hpre x hm)
        · rcases List.mem_cons.mp hm with hm | hm
          · exact le_of_eq (congrArg Prod.snd hm)
          · exact hsuf x hm
      have hbest : (rest.foldl max_step p).2 ≠ 0 := by
        intro h0
        exact hx (Nat.le_zero.mp (h0 ▸ hxle))
      refine ⟨pre, suf, rest.foldl max_step p, hs ▸ heq, ?_, hbest, hpre, hsuf⟩
      rw [auto_detect_fst_of_cons resume_text p rest hs, if_neg hbest]

/-- C4 witness: the non-all-zero branch of the theorem applied to the
text "sql", which hits only the tech category. -/
theorem C4_witness :
    ¬(∀ p ∈ auto_detect_scores "sql", p.2 = 0) ∧
    (∃ pre suf best,
      auto_detect_scores "sql" = pre ++ best :: suf
      ∧ (auto_detect_job_category "sql").1 = best.1
      ∧ best.2 ≠ 0
      ∧ (∀ q ∈ pre, q.2 < best.2)
      ∧ (∀ q ∈ suf, q.2 ≤ best.2)) :=
  ⟨by decide, (C4_auto_detect_spec "sql").2.2 (by decide)⟩

/-- Filtering with a weaker predicate keeps at least as many elements. -/
theorem length_filter_le_of_imp {α : Type} (l : List α) (p q : α → Bool)
    (h : ∀ x ∈ l, p x = true → q x = true) :
    (l.filter p).length ≤ (l.filter q).length := by
  induction l with
  | nil => simp
  | cons a l ih =>
    have ih' := ih (fun x hx hpx => h x (List.mem_cons_of_mem a hx) hpx)
    simp only [List.filter_cons]
    by_cases hp : p a = true
    · rw [if_pos hp, if_pos (h a (List.mem_cons_self a l) hp)]
      simpa using ih'
    · rw [if_neg hp]
      split
      · exact Nat.le_succ_of_le ih'
      · exact ih'

/-- C8: holding the category keyword list fixed, the keyword-matching
score is monotone in the set of matched keywords: if every keyword
matched in one text is also matched in another, the latter's score is at
least the former's. -/
theorem C8_keyword_score_monotone (job_category t1 t2 : String)
    (h : ∀ kw ∈ (get_job_keywords job_category).map pyLower,
        pyInStr kw (pyLower t2) = true → pyInStr kw (pyLower t1) = true) :
    (check_keyword_matching t2 job_category).score ≤
      (check_keyword_matching t1 job_category).score := by
  unfold check_keyword_matching
  dsimp only
  have hk : (get_job_keywords job_category).map pyLower ≠ [] := by
    simp [get_job_keywords_ne_nil]
  rw [if_neg hk, if_neg hk]
  apply min_le_min le_rfl
  have hlen :
      (((get_job_keywords job_category).map pyLower).filter
          (fun kw => pyInStr kw (pyLower t2))).length ≤
      (((get_job_keywords job_category).map pyLower).filter
          (fun kw => pyInStr kw (pyLower t1))).length :=
    length_filter_le_of_imp _ _ _ h
  have hpos : (0 : ℚ) < (((get_job_keywords job_category).map pyLower).length : ℚ) := by
    exact_mod_cast List.length_pos.mpr hk
  have hc : ((((get_job_keywords job_category).map pyLower).filter
        (fun kw => pyInStr kw (pyLower t2))).length : ℚ) ≤
      ((((get_job_keywords job_category).map pyLower).filter
        (fun kw => pyInStr kw (pyLower t1))).length : ℚ) := by
    exact_mod_cast hlen
  gcongr

/-- C8 witness: the theorem applied to the fallback keyword list with
texts "team" and "team skills". -/
theorem C8_witness :
    (∀ kw ∈ (get_job_keywords "x").map pyLower,
        pyInStr kw (pyLower "team") = true → pyInStr kw (pyLower "team skills") = true) ∧
    (check_keyword_matching "team" "x").score ≤
      (check_keyword_matching "team skills" "x").score :=
  ⟨by decide, C8_keyword_score_monotone "x" "team skills" "team" (by decide)⟩

/-- Conditional suffixing rewrites to appending a conditional list. -/
theorem if_append_keep (c : Prop) [Decidable c] (l x : List String) :
    (if c then l ++ x else l) = l ++ (if c then x else []) := by
  split <;> simp

/-- The shape of the keyword rule rewrites likewise. -/
theorem if_append_append (c d : Prop) [Decidable c] [Decidable d] (l x y : List String) :
    (if c then (if d then l else l ++ x) ++ y else l) =
      l ++ (if c then (if d then [] else x) ++ y else []) := by
  split_ifs <;> simp

/-- The shape of the structure rule rewrites likewise. -/
theorem if_append3 (c : Prop) [Decidable c] (l x y z : List String) :
    (if c then ((l ++ x) ++ y) ++ z else l) = l ++ (if c then (x ++ y) ++ z else []) := by
  split <;> simp

/-- C9 counterexample: on an input where only the format rule fires and
the overall score is 65, the code returns the overall-score message
FIRST, not in rule-declaration order as the claim states. -/
theorem C9_counterexample :
    generate_recommendations rec_input_ex ≠
      generate_recommendations_declared_order rec_input_ex := by
  have h1 : generate_recommendations rec_input_ex =
      "Your resume is good but could benefit from minor improvements" :: format_tips := by
    norm_num [generate_recommendations, rec_input_ex, format_tips]
  have h2 : generate_recommendations_declared_order rec_input_ex =
      format_tips ++ ["Your resume is good but could benefit from minor improvements"] := by
    norm_num [generate_recommendations_declared_order, base_recommendations,
      overall_recommendations, rec_input_ex, format_tips]
  rw [h1, h2]
  decide

set_option maxRecDepth 4000 in
/-- C9 amended: `_generate_recommendations` evaluates its rules in a
fixed order with each appending rule contributing its fixed strings when
its condition holds, but the overall-score rule PREPENDS its single
message; the result is the first 10 entries of that prepended list (so
at most 10 entries, with the overall message first when present). -/
theorem C9_recommendations_structure (i : RecInput) :
    generate_recommendations i =
      (overall_recommendations i ++ base_recommendations i).take 10 ∧
    (generate_recommendations i).length ≤ 10 := by
  have h : generate_recommendations i =
      (overall_recommendations i ++ base_recommendations i).take 10 := by
    simp only [generate_recommendations, base_recommendations, overall_recommendations,
      if_append_keep, if_append_append, if_append3]
    by_cases h1 : i.overall_score < (60 : ℚ) <;> by_cases h2 : i.overall_score < (80 : ℚ) <;>
      simp [h1, h2]
  exact ⟨h, h ▸ List.length_take_le _ _⟩

set_option maxHeartbeats 1000000 in
/-- C10 witness: the theorem applied to a 61-character text. -/
theorem C10_witness :
    50 ≤ (pyStrip "Experienced software developer with strong analytical skills").length ∧
    (get_detailed_analysis
        "Experienced software developer with strong analytical skills" "general").overall_score =
      pyRound1
        ((keyword_match_score
            "Experienced software developer with strong analytical skills" : ℚ) * 0.4
          + (formatting_score_calc
              "Experienced software developer with strong analytical skills" : ℚ) * 0.3
          + (length_score_calc (pyWordCount
              "Experienced software developer with strong analytical skills") : ℚ) * 0.3) :=
  ⟨by decide,
   C10_detailed_overall_formula
     "Experienced software developer with strong analytical skills" "general" (by decide)⟩
